import Mathlib

/-!
# Verification of the Highrise import pipeline

Shallow embedding of `src/highrise_importer.py` and `src/serlo/model.py`
(serlo-org/serlo-highrise-report).  XML elements are modelled as a tree of
tagged nodes; functions that can raise Python exceptions return `Except`;
Python dictionaries are modelled as association lists with unique keys
(insertion keeps the position of an existing key and overwrites its value,
exactly as a Python `dict` does).
-/

namespace Serlo

/-! ## Python dictionaries -/

/-- A Python `dict` with string keys: an association list whose keys are
unique by construction (see `pyDictOf`). -/
abbrev PyDict (α : Type) := List (String × α)

/-- `d[k]` / `d.get(k)`: the value stored for `k`, if any. -/
def dictFind? (k : String) : PyDict α → Option α
  | [] => none
  | e :: rest => if e.1 = k then some e.2 else dictFind? k rest

/-- `d[k] = v`: overwrite the value of an existing key in place (keeping its
position, as a Python `dict` does) or append a new entry. -/
def dictInsert (k : String) (v : α) : PyDict α → PyDict α
  | [] => [(k, v)]
  | e :: rest => if e.1 = k then (e.1, v) :: rest else e :: dictInsert k v rest

/-- `dict(pairs)`: build a dictionary from a list of key/value pairs, later
pairs overwriting earlier ones with the same key. -/
def pyDictOf (pairs : List (String × α)) : PyDict α :=
  pairs.foldl (fun d e => dictInsert e.1 e.2 d) []

/-! ## XML documents (`xml.etree.ElementTree`)

An element has a tag, its own text and a list of child elements.  (Tail
text between siblings is not used by the importer's documents and is left
out of the model; `itertext` therefore concatenates the element's text with
the texts of its descendants in document order.) -/

inductive XmlNode where
  | elem (tag : String) (text : String) (children : List XmlNode)

def XmlNode.tag : XmlNode → String
  | .elem t _ _ => t

def XmlNode.text : XmlNode → String
  | .elem _ s _ => s

def XmlNode.children : XmlNode → List XmlNode
  | .elem _ _ c => c

mutual

/-- `Element.itertext()`, concatenated: the element's own text followed by
the inner text of each child in order. -/
def XmlNode.itertext : XmlNode → String
  | .elem _ s c => s ++ XmlNode.itertextList c

def XmlNode.itertextList : List XmlNode → String
  | [] => ""
  | x :: xs => XmlNode.itertext x ++ XmlNode.itertextList xs

end

/-- The exceptions the importer's extraction helpers can raise.
`invalidArgument` models the `TypeError` raised when an extractor is
handed `None`; `missingField` and `ambiguousField` model the two
`AssertionError`s of `xml_find` (raised with distinct messages, "Child with
tag ... not found." and "Too many children with tag ... found.");
`valueError` models `int()` failing on a non-numeric string. -/
inductive XmlError where
  | invalidArgument (msg : String)
  | missingField (tag : String)
  | ambiguousField (tag : String)
  | valueError (s : String)
deriving DecidableEq, Repr

/-- `xml_text(xml)`: inner text of an element; raises `TypeError` on `None`. -/
def xml_text : Option XmlNode → Except XmlError String
  | none => .error (.invalidArgument "xml_text(): XML argument must not be 'None'")
  | some x => .ok x.itertext

/-- `xml_find(tag_name, xml)`: the unique child of `xml` with tag
`tag_name`; raises `TypeError` on `None`, asserts that at least one and at
most one matching child exists. -/
def xml_find (tag_name : String) : Option XmlNode → Except XmlError XmlNode
  | none => .error (.invalidArgument "xml_text(): XML argument must not be 'None'")
  | some x =>
    match x.children.filter (fun c => c.tag = tag_name) with
    | [] => .error (.missingField tag_name)
    | [r] => .ok r
    | _ :: _ :: _ => .error (.ambiguousField tag_name)

/-- The ubiquitous composition `xml_text(xml_find(tag, xml))`. -/
def xml_text_find (tag_name : String) (x : XmlNode) : Except XmlError String :=
  match xml_find tag_name (some x) with
  | .error e => .error e
  | .ok c => xml_text (some c)

/-- A Python list comprehension `[f(x) for x in l]` where `f` may raise:
evaluated left to right, the first exception aborts the whole list. -/
def exceptMapM (f : α → Except ε β) : List α → Except ε (List β)
  | [] => .ok []
  | x :: xs =>
    match f x with
    | .error e => .error e
    | .ok y =>
      match exceptMapM f xs with
      | .error e => .error e
      | .ok ys => .ok (y :: ys)

/-! ## Entities (`src/serlo/model.py`)

Each entity carries the surrogate key `id : Option Int` (the primary-key
column, `None` until the row is committed).  Python's `__eq__` of
`_SerloEntity` — `self.id == other.id and self._properties ==
other._properties`, guarded by an `isinstance` check that the Lean types
make implicit — is embedded as an explicit `Bool`-valued function per
entity; note that `_properties` never contains foreign-key columns or the
mentor reference. -/

structure Email where
  id : Option Int := none
  address : String
  person_id : Option Int := none
  location : String
deriving DecidableEq, Repr

/-- `Email.__eq__`: ids equal and `_properties = (address, location)` equal. -/
def Email.eq (a b : Email) : Bool :=
  a.id == b.id && a.address == b.address && a.location == b.location

structure PhoneNumber where
  id : Option Int := none
  number : String
  person_id : Option Int := none
  location : String
deriving DecidableEq, Repr

/-- `PhoneNumber.__eq__`: ids equal and `_properties = (number, location)` equal. -/
def PhoneNumber.eq (a b : PhoneNumber) : Bool :=
  a.id == b.id && a.number == b.number && a.location == b.location

structure Tag where
  id : Option Int := none
  tag_id : Int
  person_id : Option Int := none
deriving DecidableEq, Repr

/-- The fixed tag table `Tag.TAGS`, in its Python insertion order. -/
def Tag.TAGS : List (String × Int) :=
  [("Pause", 5979171), ("Intern", 5363523),
   ("Newcomer", 5978316), ("Intern (School)", 5417900)]

/-- `Tag.__eq__`: ids equal and `_properties = (tag_id,)` equal. -/
def Tag.eq (a b : Tag) : Bool :=
  a.id == b.id && a.tag_id == b.tag_id

/-- A Python list compared elementwise with a given element equality
(`list.__eq__` delegating to the elements' `__eq__`). -/
def listEqWith (eq : α → α → Bool) : List α → List α → Bool
  | [], [] => true
  | a :: as, b :: bs => eq a b && listEqWith eq as bs
  | _, _ => false

/-- A person.  The `mentor` relationship is a reference to another `Person`
object; in `run_script` the referenced object is always a value of the
persons dictionary, whose keys biject with its values, so the reference is
represented here by the mentor's external-id key. -/
structure Person where
  id : Option Int := none
  first_name : String
  last_name : String
  emails : List Email
  phone_numbers : List PhoneNumber
  tags : List Tag
  mentor : Option String := none
deriving DecidableEq, Repr

/-- `Person.__eq__`: ids equal and `_properties = (first_name, last_name,
emails, phone_numbers, tags)` equal (lists elementwise by the elements'
`__eq__`; the mentor reference is not part of `_properties`). -/
def Person.eq (a b : Person) : Bool :=
  a.id == b.id && a.first_name == b.first_name && a.last_name == b.last_name
    && listEqWith Email.eq a.emails b.emails
    && listEqWith PhoneNumber.eq a.phone_numbers b.phone_numbers
    && listEqWith Tag.eq a.tags b.tags

/-- `Person.has_tag(tag_id)`: `tag_id in [t.tag_id for t in self.tags]`. -/
def Person.has_tag (p : Person) (tid : Int) : Bool :=
  (p.tags.map (fun t => t.tag_id)).contains tid

/-- `Person.name`: full name, followed by the labels of the known tags the
person carries (in `Tag.TAGS` order, "Intern (School)" rendered as
"Intern"), parenthesized and comma-separated when non-empty. -/
def Person.name (p : Person) : String :=
  let name := p.first_name ++ " " ++ p.last_name
  let tags := (Tag.TAGS.filter (fun e => p.has_tag e.2)).map (fun e => e.1)
  let tags := tags.map (fun x => if x = "Intern (School)" then "Intern" else x)
  if tags.isEmpty then name
  else name ++ " (" ++ String.intercalate ", " tags ++ ")"

inductive UnitType where
  | project
  | support_unit
deriving DecidableEq, Repr

structure WorkingUnit where
  id : Option Int := none
  name : String
  description : String
  unit_type : UnitType
  person_responsible : Person
  participants : List Person
  overview_document : String
  storage_url : String
  slack_url : String
deriving DecidableEq, Repr

/-- `WorkingUnit.__eq__`: ids equal and `_properties = (name, description,
unit_type, person_responsible, participants, overview_document)` equal —
note that the tuple omits the unit's own `storage_url` and `slack_url`
columns and includes the shared `person_responsible` and `participants`
references (compared through `Person.__eq__`). -/
def WorkingUnit.eq (a b : WorkingUnit) : Bool :=
  a.id == b.id && a.name == b.name && a.description == b.description
    && a.unit_type == b.unit_type
    && Person.eq a.person_responsible b.person_responsible
    && listEqWith Person.eq a.participants b.participants
    && a.overview_document == b.overview_document

/-! ## Parsers (`src/highrise_importer.py`) -/

def PROJECT_ID : String := "6436430"

def SUPPORT_UNIT_ID : String := "4849968"

def MENTORING_DEAL_ID : String := "6438903"

def MEMBER_ID : String := "5360080"

def SUBJECT_DATA_OVERVIEW : String := "1224165"

def SUBJECT_DATA_STORAGE : String := "1258882"

def SUBJECT_DATA_SLACK : String := "1311275"

/-- `parse_subject_datas(xml)`: `xml.find("subject_datas")` returns the
first matching child or `None`; the truthiness test `if subject_datas:` is
false for `None` and for an element without children.  Otherwise the
`subject_data` children are turned into a dictionary keyed by the
`subject_field_id` text. -/
def parse_subject_datas (xml : XmlNode) : Except XmlError (PyDict String) :=
  match xml.children.find? (fun c => c.tag = "subject_datas") with
  | none => .ok []
  | some subject_datas =>
    if subject_datas.children.isEmpty then .ok []
    else
      match exceptMapM
          (fun child =>
            match xml_text_find "subject_field_id" child with
            | .error e => .error e
            | .ok k =>
              match xml_text_find "value" child with
              | .error e => .error e
              | .ok v => .ok (k, v))
          (subject_datas.children.filter (fun c => c.tag = "subject_data")) with
      | .error e => .error e
      | .ok pairs => .ok (pyDictOf pairs)

/-- `parse_email(xml)`. -/
def parse_email (xml : XmlNode) : Except XmlError Email :=
  match xml_text_find "address" xml with
  | .error e => .error e
  | .ok address =>
    match xml_text_find "location" xml with
    | .error e => .error e
    | .ok location => .ok { address := address, location := location }

/-- `parse_phone_number(xml)`. -/
def parse_phone_number (xml : XmlNode) : Except XmlError PhoneNumber :=
  match xml_text_find "number" xml with
  | .error e => .error e
  | .ok number =>
    match xml_text_find "location" xml with
    | .error e => .error e
    | .ok location => .ok { number := number, location := location }

/-- Digit-by-digit accumulator for `pyInt?`. -/
def digitsVal? : List Char → Nat → Option Nat
  | [], acc => some acc
  | c :: cs, acc =>
    if 48 ≤ c.toNat ∧ c.toNat ≤ 57 then
      digitsVal? cs (acc * 10 + (c.toNat - 48))
    else none

/-- A non-empty all-digit character sequence, as a number. -/
def natDigits? : List Char → Option Nat
  | [] => none
  | cs => digitsVal? cs 0

/-- Python `int(s)`: an optional sign followed by decimal digits (the
importer's tag ids carry no whitespace or underscore separators, so those
`int()` extras are left out of the model). -/
def pyInt? (s : String) : Option Int :=
  match s.data with
  | '-' :: cs => (natDigits? cs).map (fun n => -(n : Int))
  | '+' :: cs => (natDigits? cs).map (fun n => (n : Int))
  | cs => (natDigits? cs).map (fun n => (n : Int))

/-- `parse_tag(xml)`: `int(...)` raises `ValueError` on a malformed number. -/
def parse_tag (xml : XmlNode) : Except XmlError Tag :=
  match xml_text_find "id" xml with
  | .error e => .error e
  | .ok s =>
    match pyInt? s with
    | some n => .ok { tag_id := n }
    | none => .error (.valueError s)

/-- `parse_person(xml)`: the external id together with the built `Person`.
Iterating an element (`for e in xml_find("email-addresses", ...)`) iterates
all of its children. -/
def parse_person (xml : XmlNode) : Except XmlError (String × Person) :=
  match xml_find "contact-data" (some xml) with
  | .error e => .error e
  | .ok contact_data =>
    match xml_text_find "id" xml with
    | .error e => .error e
    | .ok external_id =>
      match xml_text_find "first-name" xml with
      | .error e => .error e
      | .ok first_name =>
        match xml_text_find "last-name" xml with
        | .error e => .error e
        | .ok last_name =>
          match xml_find "email-addresses" (some contact_data) with
          | .error e => .error e
          | .ok email_addresses =>
            match exceptMapM parse_email email_addresses.children with
            | .error e => .error e
            | .ok emails =>
              match xml_find "phone-numbers" (some contact_data) with
              | .error e => .error e
              | .ok phone_numbers_node =>
                match exceptMapM parse_phone_number phone_numbers_node.children with
                | .error e => .error e
                | .ok phone_numbers =>
                  match xml_find "tags" (some xml) with
                  | .error e => .error e
                  | .ok tags_node =>
                    match exceptMapM parse_tag tags_node.children with
                    | .error e => .error e
                    | .ok tags =>
                      .ok (external_id,
                           { first_name := first_name, last_name := last_name,
                             emails := emails, phone_numbers := phone_numbers,
                             tags := tags })

/-- `parse_people(xml)`: parse every direct `person` child. -/
def parse_people (xml : XmlNode) : Except XmlError (List (String × Person)) :=
  exceptMapM parse_person (xml.children.filter (fun c => c.tag = "person"))

/-- `parse_working_unit(xml, persons)`: classify by `category-id` (anything
but the two known ids yields `None`), require `status == "pending"`, read
the optional subject-data fields, resolve the responsible party
(`persons[...]`, a `KeyError` yields `None`), collect the raw participant
ids from the `parties` element and resolve those that are present in
`persons`, keeping input order. -/
def parse_working_unit (xml : XmlNode) (persons : PyDict Person) :
    Except XmlError (Option WorkingUnit) :=
  match xml_text_find "category-id" xml with
  | .error e => .error e
  | .ok category_id =>
    match (if category_id = PROJECT_ID then some UnitType.project
           else if category_id = SUPPORT_UNIT_ID then some UnitType.support_unit
           else none) with
    | none => .ok none
    | some unit_type =>
      match xml_text_find "status" xml with
      | .error e => .error e
      | .ok status =>
        if status ≠ "pending" then .ok none
        else
          match parse_subject_datas xml with
          | .error e => .error e
          | .ok subject_datas =>
            match xml_text_find "party-id" xml with
            | .error e => .error e
            | .ok party_id =>
              match dictFind? party_id persons with
              | none => .ok none
              | some person_responsible =>
                match xml_find "parties" (some xml) with
                | .error e => .error e
                | .ok parties =>
                  match exceptMapM (xml_text_find "id") parties.children with
                  | .error e => .error e
                  | .ok participant_ids =>
                    match xml_text_find "name" xml with
                    | .error e => .error e
                    | .ok name =>
                      match xml_text_find "background" xml with
                      | .error e => .error e
                      | .ok background =>
                        .ok (some
                          { name := name, description := background,
                            unit_type := unit_type,
                            person_responsible := person_responsible,
                            participants := participant_ids.filterMap
                              (fun x => dictFind? x persons),
                            overview_document :=
                              (dictFind? SUBJECT_DATA_OVERVIEW subject_datas).getD "",
                            storage_url :=
                              (dictFind? SUBJECT_DATA_STORAGE subject_datas).getD "",
                            slack_url :=
                              (dictFind? SUBJECT_DATA_SLACK subject_datas).getD "" })

/-- `parse_working_units(xml, persons)`: parse every child of the deals
element and keep the non-`None` results, in order. -/
def parse_working_units (xml : XmlNode) (persons : PyDict Person) :
    Except XmlError (List WorkingUnit) :=
  match exceptMapM (fun x => parse_working_unit x persons) xml.children with
  | .error e => .error e
  | .ok results => .ok (results.filterMap id)

/-- The `result` list built by the loop of `parse_mentoring`: one
`(party-id, [party ids])` pair per deal whose `category-id` equals
`MENTORING_DEAL_ID`, in input order. -/
def parse_mentoring_pairs (xml : XmlNode) :
    Except XmlError (List (String × List String)) :=
  match exceptMapM
      (fun deal =>
        match xml_text_find "category-id" deal with
        | .error e => .error e
        | .ok category_id =>
          if category_id = MENTORING_DEAL_ID then
            match xml_text_find "party-id" deal with
            | .error e => .error e
            | .ok mentor_id =>
              match xml_find "parties" (some deal) with
              | .error e => .error e
              | .ok parties =>
                match exceptMapM (xml_text_find "id") parties.children with
                | .error e => .error e
                | .ok mentee_ids => .ok (some (mentor_id, mentee_ids))
          else .ok none)
      xml.children with
  | .error e => .error e
  | .ok entries => .ok (entries.filterMap id)

/-- `parse_mentoring(xml)`: `dict(result)` — the mentoring pairs collapsed
into a dictionary keyed by mentor id, later pairs overwriting earlier ones. -/
def parse_mentoring (xml : XmlNode) : Except XmlError (PyDict (List String)) :=
  match parse_mentoring_pairs xml with
  | .error e => .error e
  | .ok result => .ok (pyDictOf result)

/-! ## The mentor-assignment pass of `run_script`

```
for mentor_id, mentee_ids in mentoring_spec.items():
    for mentee_id in mentee_ids:
        mentor = persons.get(mentor_id, None)
        mentee = persons.get(mentee_id, None)
        if mentor and mentee:
            mentee.mentor = mentor
```

A `Person` object is always truthy, so the guard holds exactly when both
lookups succeed.  The mutation `mentee.mentor = mentor` updates the person
stored under `mentee_id` (dictionary keys are unique, each key naming one
object); the assigned reference is recorded as the mentor's key. -/

/-- Update the value stored under key `k` in place. -/
def dictMapAt (k : String) (f : α → α) (d : PyDict α) : PyDict α :=
  d.map (fun e => if e.1 = k then (e.1, f e.2) else e)

/-- One iteration of the inner loop, for the pair
`(mentor_id, mentee_id) = edge`. -/
def mentorStep (persons : PyDict Person) (edge : String × String) : PyDict Person :=
  if (dictFind? edge.1 persons).isSome && (dictFind? edge.2 persons).isSome then
    dictMapAt edge.2 (fun p => { p with mentor := some edge.1 }) persons
  else persons

/-- The `(mentor_id, mentee_id)` pairs visited by the two nested loops, in
visiting order. -/
def mentorEdges (spec : List (String × List String)) : List (String × String) :=
  (spec.map (fun c => c.2.map (fun b => (c.1, b)))).flatten

/-- The whole mentor-assignment pass over the dictionary `persons`. -/
def assignMentors (spec : List (String × List String)) (persons : PyDict Person) :
    PyDict Person :=
  (mentorEdges spec).foldl mentorStep persons

/-! ## Characterization definitions

These definitions are not translations of source functions; they are the
explicit values the theorems below prove the source functions equal to. -/

/-- The value of the last pair with key `k` in a list of pairs (the
"contact appearing last in input order" of the spec). -/
def lastValue? (k : String) : List (String × α) → Option α
  | [] => none
  | e :: rest =>
    match lastValue? k rest with
    | some v => some v
    | none => if e.1 = k then some e.2 else none

/-- Whether the key `x` is present in the dictionary `d`. -/
def presIn (d : PyDict Person) (x : String) : Bool :=
  (dictFind? x d).isSome

/-- The mentor id of the last edge `(m, b)` in the list with `b = k` whose
two endpoints both satisfy the presence predicate `pres` — the last
mentorship pair targeting `k` in which both sides resolve. -/
def lastValidMentor (pres : String → Bool) (k : String) :
    List (String × String) → Option String
  | [] => none
  | e :: rest =>
    match lastValidMentor pres k rest with
    | some m => some m
    | none => if pres e.1 && pres e.2 && e.2 == k then some e.1 else none

/-- What the mentor pass does to the person stored under key `k`: its
mentor is overwritten by the last valid edge targeting `k`, and left
untouched when no valid edge targets `k`. -/
def mentorResult (pres : String → Bool) (edges : List (String × String))
    (k : String) (p : Person) : Person :=
  match lastValidMentor pres k edges with
  | some m => { p with mentor := some m }
  | none => p

/-! ## Spec-side structural equality (modelled from the spec's words)

Invariant 4 of the spec: "Two entities of the same kind are equal iff
their surrogate identifiers match (or both unset) AND all their own
scalar/owned-collection attributes match structurally, recursively."
These predicates follow that sentence; the theorem for C7 compares them
with the `__eq__` implementations embedded above. -/

def emailStructEq (a b : Email) : Prop :=
  (a.id = b.id ∨ (a.id = none ∧ b.id = none)) ∧
    a.address = b.address ∧ a.location = b.location

def phoneStructEq (a b : PhoneNumber) : Prop :=
  (a.id = b.id ∨ (a.id = none ∧ b.id = none)) ∧
    a.number = b.number ∧ a.location = b.location

def tagStructEq (a b : Tag) : Prop :=
  (a.id = b.id ∨ (a.id = none ∧ b.id = none)) ∧ a.tag_id = b.tag_id

def personStructEq (a b : Person) : Prop :=
  (a.id = b.id ∨ (a.id = none ∧ b.id = none)) ∧
    a.first_name = b.first_name ∧ a.last_name = b.last_name ∧
    List.Forall₂ emailStructEq a.emails b.emails ∧
    List.Forall₂ phoneStructEq a.phone_numbers b.phone_numbers ∧
    List.Forall₂ tagStructEq a.tags b.tags

/-! ## Concrete fixtures (used by witnesses and counterexamples) -/

/-- A leaf element with no children. -/
def leaf (tag text : String) : XmlNode := .elem tag text []

def exA : Person :=
  { first_name := "Ann", last_name := "Smith", emails := [],
    phone_numbers := [], tags := [] }

def exB : Person :=
  { first_name := "Bob", last_name := "Jones", emails := [],
    phone_numbers := [], tags := [] }

/-- A contact index containing external ids "A" and "B" but not "C"/"Z". -/
def exPersons : PyDict Person := [("A", exA), ("B", exB)]

/-- A pending project deal, responsible party "A", participants "B"
(resolvable) and "Z" (not resolvable). -/
def exDeal1 : XmlNode :=
  .elem "deal" ""
    [leaf "category-id" "6436430", leaf "status" "pending",
     leaf "party-id" "A",
     .elem "parties" ""
       [.elem "party" "" [leaf "id" "B"], .elem "party" "" [leaf "id" "Z"]],
     leaf "name" "Unit1", leaf "background" "desc"]

def exDeals : XmlNode := .elem "deals" "" [exDeal1]

/-- The working unit `parse_working_unit` builds from `exDeal1`. -/
def exUnit1 : WorkingUnit :=
  { name := "Unit1", description := "desc", unit_type := .project,
    person_responsible := exA, participants := [exB],
    overview_document := "", storage_url := "", slack_url := "" }

/-- A deal whose `category-id` is neither known classification id. -/
def exDealWrongCat : XmlNode :=
  .elem "deal" "" [leaf "category-id" "999", leaf "status" "pending"]

/-- A project deal whose status is not "pending". -/
def exDealNotPending : XmlNode :=
  .elem "deal" "" [leaf "category-id" "6436430", leaf "status" "won"]

/-- A pending project deal whose responsible party "Z" is not in the
index, while its only participant "B" resolves. -/
def exDealMissingResp : XmlNode :=
  .elem "deal" ""
    [leaf "category-id" "6436430", leaf "status" "pending",
     leaf "party-id" "Z",
     .elem "parties" "" [.elem "party" "" [leaf "id" "B"]],
     leaf "name" "Dropped", leaf "background" ""]

/-- Markus Miller carrying the tag ids 5979171 and 5978316 of the spec's
scenario. -/
def markus : Person :=
  { first_name := "Markus", last_name := "Miller", emails := [],
    phone_numbers := [],
    tags := [{ tag_id := 5979171 }, { tag_id := 5978316 }] }

/-- Markus Miller additionally carrying the "Intern (School)" tag id. -/
def markusSchool : Person :=
  { first_name := "Markus", last_name := "Miller", emails := [],
    phone_numbers := [],
    tags := [{ tag_id := 5979171 }, { tag_id := 5978316 },
             { tag_id := 5417900 }] }

/-- A raw person node with external id "A". -/
def exPersonXml : XmlNode :=
  .elem "person" ""
    [leaf "id" "A", leaf "first-name" "Markus", leaf "last-name" "Miller",
     .elem "contact-data" ""
       [.elem "email-addresses" ""
          [.elem "email" "" [leaf "address" "a@example.org", leaf "location" "Work"]],
        .elem "phone-numbers" "" []],
     .elem "tags" "" [.elem "tag" "" [leaf "id" "5979171"]]]

/-- The person `parse_person` builds from `exPersonXml`. -/
def exPerson : Person :=
  { first_name := "Markus", last_name := "Miller",
    emails := [{ address := "a@example.org", location := "Work" }],
    phone_numbers := [], tags := [{ tag_id := 5979171 }] }

/-- Two mentoring deals sharing the mentor id "M" (with mentee "a" and
mentee "b" respectively), plus an unrelated deal. -/
def exMentoringDeals : XmlNode :=
  .elem "deals" ""
    [.elem "deal" ""
       [leaf "category-id" "6438903", leaf "party-id" "M",
        .elem "parties" "" [.elem "party" "" [leaf "id" "a"]]],
     .elem "deal" "" [leaf "category-id" "999"],
     .elem "deal" ""
       [leaf "category-id" "6438903", leaf "party-id" "M",
        .elem "parties" "" [.elem "party" "" [leaf "id" "b"]]]]

def exMentoringPairs : List (String × List String) :=
  [("M", ["a"]), ("M", ["b"])]

/-- A working unit with auxiliary links "s1"/"k1". -/
def exUnitS1 : WorkingUnit :=
  { name := "U", description := "d", unit_type := .project,
    person_responsible := exA, participants := [exB],
    overview_document := "o", storage_url := "s1", slack_url := "k1" }

/-- The same working unit except for its `storage_url` and `slack_url`. -/
def exUnitS2 : WorkingUnit :=
  { name := "U", description := "d", unit_type := .project,
    person_responsible := exA, participants := [exB],
    overview_document := "o", storage_url := "s2", slack_url := "k2" }

/-- An element with no children at all. -/
def exEmptyNode : XmlNode := .elem "r" "" []

/-- An element with two children tagged "x". -/
def exDupNode : XmlNode := .elem "r" "" [leaf "x" "1", leaf "x" "2"]

/-! ## Dictionary lemmas -/

theorem dictFind?_dictInsert (k a : String) (b : α) (d : PyDict α) :
    dictFind? k (dictInsert a b d) = if a = k then some b else dictFind? k d := by
  induction d with
  | nil => simp [dictInsert, dictFind?]
  | cons e rest ih =>
    by_cases hea : e.1 = a
    · simp only [dictInsert, if_pos hea, dictFind?]
      by_cases hk : a = k
      · simp [hea, hk]
      · have : ¬ e.1 = k := by rw [hea]; exact hk
        simp [this, hk]
    · simp only [dictInsert, if_neg hea, dictFind?]
      by_cases hek : e.1 = k
      · have : ¬ a = k := fun h => hea (hek.trans h.symm)
        simp [hek, this]
      · simp [hek, ih]

theorem dictFind?_foldl_insert (pairs : List (String × α)) (d : PyDict α)
    (k : String) :
    dictFind? k (pairs.foldl (fun d e => dictInsert e.1 e.2 d) d) =
      match lastValue? k pairs with
      | some v => some v
      | none => dictFind? k d := by
  induction pairs generalizing d with
  | nil => simp [lastValue?]
  | cons e rest ih =>
    simp only [List.foldl_cons, lastValue?]
    rw [ih, dictFind?_dictInsert]
    cases lastValue? k rest with
    | some v => simp
    | none => by_cases h : e.1 = k <;> simp [h]

/-- Looking a key up in `dict(pairs)` returns the value of the last pair
with that key. -/
theorem dictFind?_pyDictOf (pairs : List (String × α)) (k : String) :
    dictFind? k (pyDictOf pairs) = lastValue? k pairs := by
  rw [pyDictOf, dictFind?_foldl_insert]
  cases lastValue? k pairs <;> simp [dictFind?]

/-- `lastValue?` agrees with scanning the reversed list for the first pair
with the key: it is the value of the pair appearing last in input order. -/
theorem lastValue?_eq_find?_reverse (pairs : List (String × α)) (k : String) :
    lastValue? k pairs =
      (pairs.reverse.find? (fun e => e.1 = k)).map (fun e => e.2) := by
  induction pairs with
  | nil => simp [lastValue?]
  | cons e rest ih =>
    rw [lastValue?, ih, List.reverse_cons, List.find?_append]
    cases hrev : rest.reverse.find? (fun e => decide (e.1 = k)) with
    | some v => simp [Option.or]
    | none =>
      by_cases hek : e.1 = k <;> simp [Option.or, List.find?, hek]

/-! ## Mentor-pass lemmas -/

theorem dictFind?_dictMapAt (k' k : String) (f : α → α) (d : PyDict α) :
    dictFind? k' (dictMapAt k f d) =
      if k' = k then (dictFind? k' d).map f else dictFind? k' d := by
  induction d with
  | nil => by_cases h : k' = k <;> simp [dictMapAt, dictFind?, h]
  | cons e rest ih =>
    simp only [dictMapAt, List.map_cons] at ih ⊢
    by_cases h2 : e.1 = k
    · rw [if_pos h2]
      by_cases h1 : e.1 = k'
      · have hk : k' = k := h1 ▸ h2
        simp [dictFind?, h1, hk]
      · simp [dictFind?, h1, ih]
    · rw [if_neg h2]
      by_cases h1 : e.1 = k'
      · have hk : ¬ k' = k := fun hh => h2 (h1.trans hh)
        simp [dictFind?, h1, hk]
      · simp [dictFind?, h1, ih]

theorem presIn_mentorStep (d : PyDict Person) (e : String × String) :
    presIn (mentorStep d e) = presIn d := by
  funext x
  unfold mentorStep
  split
  · unfold presIn
    rw [dictFind?_dictMapAt]
    split
    · cases dictFind? x d <;> rfl
    · rfl
  · rfl

theorem lastValidMentor_cons (pres : String → Bool) (k : String)
    (e : String × String) (rest : List (String × String)) :
    lastValidMentor pres k (e :: rest) =
      match lastValidMentor pres k rest with
      | some m => some m
      | none => if pres e.1 && pres e.2 && e.2 == k then some e.1 else none := rfl

theorem mentorResult_cons (pres : String → Bool) (e : String × String)
    (edges : List (String × String)) (k : String) (p : Person) :
    mentorResult pres (e :: edges) k p =
      match lastValidMentor pres k edges with
      | some m => { p with mentor := some m }
      | none =>
        if pres e.1 && pres e.2 && e.2 == k
        then { p with mentor := some e.1 } else p := by
  rw [mentorResult, lastValidMentor_cons]
  cases lastValidMentor pres k edges with
  | some m => rfl
  | none =>
    by_cases h : (pres e.1 && pres e.2 && e.2 == k) = true
    · simp only [h, if_true]
    · simp only [Bool.not_eq_true] at h
      simp only [h, Bool.false_eq_true, if_false]

/-- A fold of `mentorStep` over a list of edges rewrites every person's
mentor to the last valid edge targeting it, and touches nothing else. -/
theorem foldl_mentorStep_eq_map (edges : List (String × String)) (d : PyDict Person) :
    edges.foldl mentorStep d =
      d.map (fun ent => (ent.1, mentorResult (presIn d) edges ent.1 ent.2)) := by
  induction edges generalizing d with
  | nil =>
    simp [mentorResult, lastValidMentor]
  | cons e rest ih =>
    rw [List.foldl_cons, ih (mentorStep d e), presIn_mentorStep]
    unfold mentorStep
    by_cases hg : ((dictFind? e.1 d).isSome && (dictFind? e.2 d).isSome) = true
    · rw [if_pos hg]
      unfold dictMapAt
      rw [List.map_map]
      apply List.map_congr_left
      intro ent _
      simp only [Function.comp]
      have hg1 : presIn d e.1 = true := (Bool.and_eq_true _ _ ▸ hg).1
      have hg2 : presIn d e.2 = true := (Bool.and_eq_true _ _ ▸ hg).2
      rw [mentorResult_cons]
      by_cases hk : ent.1 = e.2
      · rw [if_pos hk]
        rw [mentorResult]
        cases hrec : lastValidMentor (presIn d) ent.1 rest with
        | some m => rfl
        | none =>
          have hbeq : (e.2 == ent.1) = true := by
            rw [beq_iff_eq]; exact hk.symm
          simp only [hg1, hg2, hbeq, Bool.and_self, Bool.true_and, if_true]
      · rw [if_neg hk]
        rw [mentorResult]
        cases hrec : lastValidMentor (presIn d) ent.1 rest with
        | some m => rfl
        | none =>
          have hbeq : (e.2 == ent.1) = false := by
            rw [beq_eq_false_iff_ne]
            exact fun hh => hk hh.symm
          simp only [hg1, hg2, hbeq, Bool.and_false, Bool.true_and,
                     Bool.false_eq_true, if_false]
    · rw [if_neg hg]
      apply List.map_congr_left
      intro ent _
      rw [mentorResult_cons, mentorResult]
      cases hrec : lastValidMentor (presIn d) ent.1 rest with
      | some m => rfl
      | none =>
        have h12 : presIn d e.1 = false ∨ presIn d e.2 = false := by
          cases h1 : presIn d e.1 <;> cases h2 : presIn d e.2 <;>
            simp_all [presIn]
        rcases h12 with h | h <;>
          simp only [h, Bool.false_and, Bool.and_false, Bool.true_and,
                     Bool.false_eq_true, if_false]

/-- The whole mentor pass, characterized entrywise. -/
theorem assignMentors_eq_map (spec : List (String × List String)) (d : PyDict Person) :
    assignMentors spec d =
      d.map (fun ent => (ent.1, mentorResult (presIn d) (mentorEdges spec) ent.1 ent.2)) :=
  foldl_mentorStep_eq_map (mentorEdges spec) d

theorem dictFind?_map_entry (k : String) (f : String → α → α) (d : PyDict α) :
    dictFind? k (d.map (fun ent => (ent.1, f ent.1 ent.2))) =
      (dictFind? k d).map (f k) := by
  induction d with
  | nil => rfl
  | cons e rest ih =>
    by_cases h : e.1 = k
    · simp [dictFind?, h]
    · simp [dictFind?, h, ih]

theorem mentorResult_idem (pres : String → Bool) (edges : List (String × String))
    (k : String) (p : Person) :
    mentorResult pres edges k (mentorResult pres edges k p) =
      mentorResult pres edges k p := by
  unfold mentorResult
  cases lastValidMentor pres k edges <;> rfl

/-! ## Parser lemmas -/

theorem exceptMapM_ok_mem {f : α → Except ε β} :
    ∀ (l : List α) (res : List β), exceptMapM f l = .ok res →
      ∀ y ∈ res, ∃ x ∈ l, f x = .ok y := by
  intro l
  induction l with
  | nil =>
    intro res h y hy
    rw [exceptMapM] at h
    cases h
    exact absurd hy (List.not_mem_nil y)
  | cons x xs ih =>
    intro res h y hy
    rw [exceptMapM] at h
    split at h
    · exact Except.noConfusion h
    · next z hz =>
      split at h
      · exact Except.noConfusion h
      · next ys hys =>
        cases h
        rcases List.mem_cons.mp hy with rfl | hmem
        · exact ⟨x, List.mem_cons_self x xs, hz⟩
        · obtain ⟨x', hx', hfx'⟩ := ih ys hys y hmem
          exact ⟨x', List.mem_cons_of_mem x hx', hfx'⟩

theorem parse_working_units_ok_mem (deals : XmlNode) (persons : PyDict Person)
    (units : List WorkingUnit)
    (h : parse_working_units deals persons = .ok units) :
    ∀ u ∈ units, ∃ x ∈ deals.children,
      parse_working_unit x persons = .ok (some u) := by
  rw [parse_working_units] at h
  split at h
  · exact Except.noConfusion h
  · next results hres =>
    cases h
    intro u hu
    rw [List.mem_filterMap] at hu
    obtain ⟨o, ho, hid⟩ := hu
    obtain ⟨x, hx, hfx⟩ := exceptMapM_ok_mem _ _ hres o ho
    refine ⟨x, hx, ?_⟩
    rw [hfx]
    simp only [id] at hid
    rw [hid]

theorem parse_working_unit_ok_some (xml : XmlNode) (persons : PyDict Person)
    (u : WorkingUnit) (h : parse_working_unit xml persons = .ok (some u)) :
    ∃ pid parties pids,
      xml_text_find "party-id" xml = .ok pid ∧
      dictFind? pid persons = some u.person_responsible ∧
      xml_find "parties" (some xml) = .ok parties ∧
      exceptMapM (xml_text_find "id") parties.children = .ok pids ∧
      u.participants = pids.filterMap (fun x => dictFind? x persons) := by
  rw [parse_working_unit] at h
  repeat' split at h
  any_goals exact Except.noConfusion h
  all_goals simp only [Except.ok.injEq] at h
  any_goals exact Option.noConfusion h
  all_goals simp only [Option.some.injEq] at h
  all_goals subst h
  rename_i x9 cid hcat x8 ut hut x7 st hst hpend x6 sd hsubj x5 pid hparty
    x4 resp hfind x3 parties hparties x2 pids hids x1 nm hname x0 bg hbg
  exact ⟨pid, parties, pids, hparty, hfind, hparties, hids, rfl⟩

theorem parse_working_unit_wrong_category (xml : XmlNode)
    (persons : PyDict Person) (cid : String)
    (hc : xml_text_find "category-id" xml = .ok cid)
    (h1 : cid ≠ PROJECT_ID) (h2 : cid ≠ SUPPORT_UNIT_ID) :
    parse_working_unit xml persons = .ok none := by
  rw [parse_working_unit, hc]
  simp [h1, h2]

theorem parse_working_unit_not_pending (xml : XmlNode)
    (persons : PyDict Person) (cid st : String)
    (hc : xml_text_find "category-id" xml = .ok cid)
    (hcid : cid = PROJECT_ID ∨ cid = SUPPORT_UNIT_ID)
    (hs : xml_text_find "status" xml = .ok st) (hst : st ≠ "pending") :
    parse_working_unit xml persons = .ok none := by
  rw [parse_working_unit, hc]
  have hPS : ¬ SUPPORT_UNIT_ID = PROJECT_ID := by decide
  rcases hcid with rfl | rfl
  · simp [hs, hst]
  · simp [hPS, hs, hst]

theorem parse_working_unit_missing_responsible (xml : XmlNode)
    (persons : PyDict Person) (cid pid : String) (sd : PyDict String)
    (hc : xml_text_find "category-id" xml = .ok cid)
    (hcid : cid = PROJECT_ID ∨ cid = SUPPORT_UNIT_ID)
    (hs : xml_text_find "status" xml = .ok "pending")
    (hsd : parse_subject_datas xml = .ok sd)
    (hp : xml_text_find "party-id" xml = .ok pid)
    (hmiss : dictFind? pid persons = none) :
    parse_working_unit xml persons = .ok none := by
  rw [parse_working_unit, hc]
  have hPS : ¬ SUPPORT_UNIT_ID = PROJECT_ID := by decide
  rcases hcid with rfl | rfl
  · simp [hs, hsd, hp, hmiss]
  · simp [hPS, hs, hsd, hp, hmiss]

/-! ## Equality lemmas -/

theorem id_match_iff (a b : Option Int) :
    a = b ↔ (a = b ∨ (a = none ∧ b = none)) :=
  ⟨Or.inl, fun h => h.elim id (fun h' => h'.1.trans h'.2.symm)⟩

theorem emailEq_iff (a b : Email) : Email.eq a b = true ↔ emailStructEq a b := by
  rw [emailStructEq, ← id_match_iff]
  simp [Email.eq, Bool.and_eq_true, and_assoc]

theorem phoneEq_iff (a b : PhoneNumber) :
    PhoneNumber.eq a b = true ↔ phoneStructEq a b := by
  rw [phoneStructEq, ← id_match_iff]
  simp [PhoneNumber.eq, Bool.and_eq_true, and_assoc]

theorem tagEq_iff (a b : Tag) : Tag.eq a b = true ↔ tagStructEq a b := by
  rw [tagStructEq, ← id_match_iff]
  simp [Tag.eq, Bool.and_eq_true]

theorem listEqWith_iff {eqb : α → α → Bool} {R : α → α → Prop}
    (hpt : ∀ x y, eqb x y = true ↔ R x y) :
    ∀ l1 l2 : List α, listEqWith eqb l1 l2 = true ↔ List.Forall₂ R l1 l2 := by
  intro l1
  induction l1 with
  | nil => intro l2; cases l2 <;> simp [listEqWith]
  | cons a as ih =>
    intro l2
    cases l2 with
    | nil => simp [listEqWith]
    | cons b bs =>
      simp [listEqWith, Bool.and_eq_true, hpt, List.forall₂_cons, ih]

theorem listEqWith_refl {eqb : α → α → Bool} (hrefl : ∀ x, eqb x x = true) :
    ∀ l : List α, listEqWith eqb l l = true := by
  intro l
  induction l with
  | nil => rfl
  | cons a as ih => simp [listEqWith, hrefl, ih]

theorem emailEq_refl (a : Email) : Email.eq a a = true := by
  simp [Email.eq]

theorem phoneEq_refl (a : PhoneNumber) : PhoneNumber.eq a a = true := by
  simp [PhoneNumber.eq]

theorem tagEq_refl (a : Tag) : Tag.eq a a = true := by
  simp [Tag.eq]

theorem personEq_refl (a : Person) : Person.eq a a = true := by
  simp [Person.eq, listEqWith_refl emailEq_refl,
        listEqWith_refl phoneEq_refl, listEqWith_refl tagEq_refl]

theorem Person.eq_iff_structEq (a b : Person) :
    Person.eq a b = true ↔ personStructEq a b := by
  rw [personStructEq, ← id_match_iff]
  simp [Person.eq, Bool.and_eq_true, and_assoc,
        listEqWith_iff emailEq_iff, listEqWith_iff phoneEq_iff,
        listEqWith_iff tagEq_iff]

theorem workingUnitEq_iff (a b : WorkingUnit) :
    WorkingUnit.eq a b = true ↔
      a.id = b.id ∧ a.name = b.name ∧ a.description = b.description ∧
      a.unit_type = b.unit_type ∧
      personStructEq a.person_responsible b.person_responsible ∧
      List.Forall₂ personStructEq a.participants b.participants ∧
      a.overview_document = b.overview_document := by
  simp [WorkingUnit.eq, Bool.and_eq_true, and_assoc,
        Person.eq_iff_structEq, listEqWith_iff Person.eq_iff_structEq]

/-- Every person built by `parse_person` has no surrogate id and no mentor
reference. -/
theorem parse_person_fresh (xml : XmlNode) (eid : String) (p : Person)
    (h : parse_person xml = .ok (eid, p)) :
    p.id = none ∧ p.mentor = none := by
  rw [parse_person] at h
  repeat' split at h
  any_goals exact Except.noConfusion h
  simp only [Except.ok.injEq, Prod.mk.injEq] at h
  obtain ⟨-, h2⟩ := h
  subst h2
  exact ⟨rfl, rfl⟩

/-! ## Claim theorems -/

/-- Claim C1: every working unit emitted by `parse_working_units` has a
responsible party that resolves in the contact index, and a deal that
passes the category and status checks but whose responsible-party id is
absent from the index yields no unit at all (`.ok none`), regardless of
its participants. -/
theorem c1_responsible_resolves_or_dropped :
    (∀ (deals : XmlNode) (persons : PyDict Person) (units : List WorkingUnit),
        parse_working_units deals persons = .ok units →
        ∀ u ∈ units, ∃ k, dictFind? k persons = some u.person_responsible) ∧
    (∀ (xml : XmlNode) (persons : PyDict Person) (cid pid : String)
        (sd : PyDict String),
        xml_text_find "category-id" xml = .ok cid →
        (cid = PROJECT_ID ∨ cid = SUPPORT_UNIT_ID) →
        xml_text_find "status" xml = .ok "pending" →
        parse_subject_datas xml = .ok sd →
        xml_text_find "party-id" xml = .ok pid →
        dictFind? pid persons = none →
        parse_working_unit xml persons = .ok none) := by
  constructor
  · intro deals persons units h u hu
    obtain ⟨x, _, hfx⟩ := parse_working_units_ok_mem deals persons units h u hu
    obtain ⟨pid, _, _, _, hfind, _, _, _⟩ :=
      parse_working_unit_ok_some x persons u hfx
    exact ⟨pid, hfind⟩
  · intro xml persons cid pid sd hc hcid hs hsd hp hmiss
    exact parse_working_unit_missing_responsible xml persons cid pid sd
      hc hcid hs hsd hp hmiss

/-- Witness for C1 at the concrete fixtures: the unit parsed from
`exDeals` has a resolvable responsible party, and `exDealMissingResp`
(responsible "Z" absent, participant "B" resolvable) is dropped. -/
theorem c1_witness :
    (∃ k, dictFind? k exPersons = some exUnit1.person_responsible) ∧
    parse_working_unit exDealMissingResp exPersons = .ok none := by
  constructor
  · exact c1_responsible_resolves_or_dropped.1 exDeals exPersons [exUnit1]
      (by rfl) exUnit1 (by simp)
  · exact c1_responsible_resolves_or_dropped.2 exDealMissingResp exPersons
      PROJECT_ID "Z" [] (by rfl) (Or.inl rfl) (by rfl) (by rfl) (by rfl) (by rfl)

/-- Claim C2: every participant of a working unit emitted by
`parse_working_units` resolves in the contact index; unresolved
participant ids are silently dropped, and the participant list is exactly
the input-ordered list of raw ids filtered through the index
(`List.filterMap`), so the relative order of resolved participants is the
raw input order. -/
theorem c2_participants_resolve_in_order :
    ∀ (deals : XmlNode) (persons : PyDict Person) (units : List WorkingUnit),
      parse_working_units deals persons = .ok units →
      ∀ u ∈ units, ∃ x ∈ deals.children, ∃ parties pids,
        xml_find "parties" (some x) = .ok parties ∧
        exceptMapM (xml_text_find "id") parties.children = .ok pids ∧
        u.participants = pids.filterMap (fun k => dictFind? k persons) ∧
        ∀ p ∈ u.participants, ∃ k ∈ pids, dictFind? k persons = some p := by
  intro deals persons units h u hu
  obtain ⟨x, hx, hfx⟩ := parse_working_units_ok_mem deals persons units h u hu
  obtain ⟨pid, parties, pids, _, _, hparties, hpids, hpart⟩ :=
    parse_working_unit_ok_some x persons u hfx
  refine ⟨x, hx, parties, pids, hparties, hpids, hpart, ?_⟩
  intro p hp
  rw [hpart, List.mem_filterMap] at hp
  obtain ⟨k, hk, hkp⟩ := hp
  exact ⟨k, hk, hkp⟩

/-- Witness for C2 at the concrete fixtures: the unit parsed from
`exDeals` (participant ids "B" resolvable and "Z" not) has participants
`[exB]`, i.e. the filtered raw id list in input order. -/
theorem c2_witness :
    ∃ x ∈ exDeals.children, ∃ parties pids,
      xml_find "parties" (some x) = .ok parties ∧
      exceptMapM (xml_text_find "id") parties.children = .ok pids ∧
      exUnit1.participants = pids.filterMap (fun k => dictFind? k exPersons) ∧
      ∀ p ∈ exUnit1.participants, ∃ k ∈ pids, dictFind? k exPersons = some p :=
  c2_participants_resolve_in_order exDeals exPersons [exUnit1] (by rfl)
    exUnit1 (by simp)

/-- Claim C3: looking up any contact after the mentor pass shows its
mentor set by the last mentorship pair targeting it in which both the
mentor id and the mentee id resolve in the index (`lastValidMentor`), and
left unchanged when no such pair exists — each pair is skipped or applied
individually, and no error is possible (the pass is a total function).
The second conjunct is the spec's scenario: candidate
`("A", ["B", "C"])` over an index containing "A" and "B" but not "C"
gives B the mentor "A" and leaves everything else unchanged. -/
theorem c3_mentor_edges_individually :
    (∀ (spec : List (String × List String)) (persons : PyDict Person)
        (k : String) (p : Person),
        dictFind? k persons = some p →
        dictFind? k (assignMentors spec persons) =
          some (mentorResult (presIn persons) (mentorEdges spec) k p)) ∧
    assignMentors [("A", ["B", "C"])] exPersons =
      [("A", exA), ("B", { exB with mentor := some "A" })] := by
  constructor
  · intro spec persons k p h
    rw [assignMentors_eq_map, dictFind?_map_entry, h]
    rfl
  · rfl

/-- Witness for C3 at the concrete fixtures. -/
theorem c3_witness :
    dictFind? "B" (assignMentors [("A", ["B", "C"])] exPersons) =
      some (mentorResult (presIn exPersons)
        (mentorEdges [("A", ["B", "C"])]) "B" exB) :=
  c3_mentor_edges_individually.1 [("A", ["B", "C"])] exPersons "B" exB (by rfl)

/-- Counterexample for C4: the claim says the two rejection reasons
(wrong category vs not pending) are distinguishable, but
`parse_working_unit` returns the bare `None` in both cases: the deal with
`category-id = "999"` and the project deal with status "won" produce the
very same value, so no caller can tell the two rejections apart. -/
theorem c4_counterexample :
    parse_working_unit exDealWrongCat exPersons = .ok none ∧
    parse_working_unit exDealNotPending exPersons = .ok none ∧
    parse_working_unit exDealWrongCat exPersons =
      parse_working_unit exDealNotPending exPersons :=
  ⟨rfl, rfl, rfl⟩

/-- Claim C4 as amended: a deal whose `category-id` matches neither known
classification id yields `.ok none`, and a deal with a known category but
a status other than "pending" also yields `.ok none`; both contribute
nothing to the output, but the two rejections are not distinguishable —
they are the same `none` result. -/
theorem c4_rejections_yield_none :
    (∀ (xml : XmlNode) (persons : PyDict Person) (cid : String),
        xml_text_find "category-id" xml = .ok cid →
        cid ≠ PROJECT_ID → cid ≠ SUPPORT_UNIT_ID →
        parse_working_unit xml persons = .ok none) ∧
    (∀ (xml : XmlNode) (persons : PyDict Person) (cid st : String),
        xml_text_find "category-id" xml = .ok cid →
        (cid = PROJECT_ID ∨ cid = SUPPORT_UNIT_ID) →
        xml_text_find "status" xml = .ok st → st ≠ "pending" →
        parse_working_unit xml persons = .ok none) ∧
    (∀ (xml1 xml2 : XmlNode) (persons1 persons2 : PyDict Person)
        (cid1 cid2 st : String),
        xml_text_find "category-id" xml1 = .ok cid1 →
        cid1 ≠ PROJECT_ID → cid1 ≠ SUPPORT_UNIT_ID →
        xml_text_find "category-id" xml2 = .ok cid2 →
        (cid2 = PROJECT_ID ∨ cid2 = SUPPORT_UNIT_ID) →
        xml_text_find "status" xml2 = .ok st → st ≠ "pending" →
        parse_working_unit xml1 persons1 = parse_working_unit xml2 persons2) := by
  refine ⟨parse_working_unit_wrong_category, parse_working_unit_not_pending, ?_⟩
  intro xml1 xml2 persons1 persons2 cid1 cid2 st h1 h2 h3 h4 h5 h6 h7
  rw [parse_working_unit_wrong_category xml1 persons1 cid1 h1 h2 h3,
      parse_working_unit_not_pending xml2 persons2 cid2 st h4 h5 h6 h7]

/-- Witness for C4 at the concrete fixtures. -/
theorem c4_witness :
    parse_working_unit exDealWrongCat exPersons = .ok none ∧
    parse_working_unit exDealNotPending exPersons = .ok none ∧
    parse_working_unit exDealWrongCat exPersons =
      parse_working_unit exDealNotPending exPersons := by
  refine ⟨?_, ?_, ?_⟩
  · exact c4_rejections_yield_none.1 exDealWrongCat exPersons "999"
      (by rfl) (by decide) (by decide)
  · exact c4_rejections_yield_none.2.1 exDealNotPending exPersons
      PROJECT_ID "won" (by rfl) (Or.inl rfl) (by rfl) (by decide)
  · exact c4_rejections_yield_none.2.2 exDealWrongCat exDealNotPending
      exPersons exPersons "999" PROJECT_ID "won" (by rfl) (by decide)
      (by decide) (by rfl) (Or.inl rfl) (by rfl) (by decide)

/-- Claim C5: `xml_find` fails with the missing-field error when no child
matches the tag and with the ambiguous-field error when two or more
children match — two distinct error kinds — and both `xml_find` and
`xml_text` fail with the distinct invalid-argument error (the `TypeError`)
when handed an absent node instead of producing an empty value. -/
theorem c5_extraction_errors :
    (∀ (tag_name : String) (x : XmlNode),
        x.children.filter (fun c => c.tag = tag_name) = [] →
        xml_find tag_name (some x) = .error (.missingField tag_name)) ∧
    (∀ (tag_name : String) (x : XmlNode) (c1 c2 : XmlNode) (rest : List XmlNode),
        x.children.filter (fun c => c.tag = tag_name) = c1 :: c2 :: rest →
        xml_find tag_name (some x) = .error (.ambiguousField tag_name)) ∧
    (∀ tag_name : String, xml_find tag_name none =
        .error (.invalidArgument "xml_text(): XML argument must not be 'None'")) ∧
    xml_text none =
      .error (.invalidArgument "xml_text(): XML argument must not be 'None'") ∧
    (∀ t t' m : String,
        XmlError.missingField t ≠ XmlError.ambiguousField t' ∧
        XmlError.missingField t ≠ XmlError.invalidArgument m ∧
        XmlError.ambiguousField t' ≠ XmlError.invalidArgument m) := by
  refine ⟨?_, ?_, fun _ => rfl, rfl, ?_⟩
  · intro tag_name x hf
    simp only [xml_find]
    rw [hf]
  · intro tag_name x c1 c2 rest hf
    simp only [xml_find]
    rw [hf]
  · intro t t' m
    exact ⟨fun h => XmlError.noConfusion h, fun h => XmlError.noConfusion h,
           fun h => XmlError.noConfusion h⟩

/-- Witness for C5 at the concrete fixtures: a childless element is
missing every tag, and `exDupNode` has two children tagged "x". -/
theorem c5_witness :
    xml_find "x" (some exEmptyNode) = .error (.missingField "x") ∧
    xml_find "x" (some exDupNode) = .error (.ambiguousField "x") :=
  ⟨c5_extraction_errors.1 "x" exEmptyNode (by rfl),
   c5_extraction_errors.2.1 "x" exDupNode (leaf "x" "1") (leaf "x" "2") []
     (by rfl)⟩

/-- Counterexample for C6: the spec's scenario says the display name of
Markus Miller with tag ids 5979171 and 5978316 carries the labels "Pause"
and "Intern", but the code's `Tag.TAGS` table maps 5978316 to "Newcomer"
(and "Intern" to 5363523), so the derived name is
"Markus Miller (Pause, Newcomer)" and not "Markus Miller (Pause, Intern)". -/
theorem c6_counterexample :
    Person.name markus = "Markus Miller (Pause, Newcomer)" ∧
    Person.name markus ≠ "Markus Miller (Pause, Intern)" :=
  ⟨rfl, by decide⟩

/-- Claim C6 as amended: the display name of Markus Miller with tag ids
5979171 and 5978316 appends the labels "Pause" and "Newcomer" — the
labels `Tag.TAGS` actually pairs with those ids — in the fixed table
order, and the "Intern (School)" label (id 5417900) is rendered as
"Intern" when that tag is present. -/
theorem c6_tag_labels_in_table_order :
    Person.name markus = "Markus Miller (Pause, Newcomer)" ∧
    Person.name markusSchool = "Markus Miller (Pause, Newcomer, Intern)" ∧
    Tag.TAGS.find? (fun e => e.2 = 5978316) = some ("Newcomer", 5978316) ∧
    Tag.TAGS.find? (fun e => e.1 = "Intern") = some ("Intern", 5363523) :=
  ⟨rfl, rfl, rfl, rfl⟩

/-- Counterexample for C7: the claim's iff fails for the WorkingUnit
kind — `exUnitS1` and `exUnitS2` differ in their own scalar attributes
`storage_url` and `slack_url`, yet the embedded `WorkingUnit.__eq__`
judges them equal, because `WorkingUnit._properties` omits those two
columns. -/
theorem c7_counterexample :
    WorkingUnit.eq exUnitS1 exUnitS2 = true ∧
    exUnitS1.storage_url ≠ exUnitS2.storage_url ∧
    exUnitS1.slack_url ≠ exUnitS2.slack_url :=
  ⟨rfl, by decide, by decide⟩

/-- Claim C7 as amended: for Person entities, the embedded `__eq__` holds
exactly when the surrogate ids match (or are both unset) and all scalar
and owned-collection attributes (names, emails, phone numbers, tags)
match structurally and recursively, and any contact built by
`parse_person` has no surrogate id yet and is equal to a contact built
from the same raw node (`Person.eq p p`, parsing being a function of the
node).  For the WorkingUnit kind, however, `__eq__` compares the ids
together with name, description, unit type, the shared responsible and
participant references (recursively through the persons' `__eq__`) and
the overview document only: the unit's own `storage_url` and `slack_url`
do not participate, so the claimed iff over all own attributes does not
hold for that kind. -/
theorem c7_structural_equality :
    (∀ a b : Person, Person.eq a b = true ↔ personStructEq a b) ∧
    (∀ a b : WorkingUnit,
        WorkingUnit.eq a b = true ↔
          a.id = b.id ∧ a.name = b.name ∧ a.description = b.description ∧
          a.unit_type = b.unit_type ∧
          personStructEq a.person_responsible b.person_responsible ∧
          List.Forall₂ personStructEq a.participants b.participants ∧
          a.overview_document = b.overview_document) ∧
    (∀ (xml : XmlNode) (eid : String) (p : Person),
        parse_person xml = .ok (eid, p) →
        p.id = none ∧ Person.eq p p = true) := by
  refine ⟨Person.eq_iff_structEq, workingUnitEq_iff, ?_⟩
  intro xml eid p h
  exact ⟨(parse_person_fresh xml eid p h).1, personEq_refl p⟩

/-- Witness for C7 at the concrete fixtures: the person parsed from
`exPersonXml` has no id and equals itself structurally, and the
WorkingUnit characterization instantiated at the two units differing
only in their auxiliary links. -/
theorem c7_witness :
    (Person.eq exPerson markus = true ↔ personStructEq exPerson markus) ∧
    (WorkingUnit.eq exUnitS1 exUnitS2 = true ↔
      exUnitS1.id = exUnitS2.id ∧ exUnitS1.name = exUnitS2.name ∧
      exUnitS1.description = exUnitS2.description ∧
      exUnitS1.unit_type = exUnitS2.unit_type ∧
      personStructEq exUnitS1.person_responsible exUnitS2.person_responsible ∧
      List.Forall₂ personStructEq exUnitS1.participants exUnitS2.participants ∧
      exUnitS1.overview_document = exUnitS2.overview_document) ∧
    exPerson.id = none ∧ Person.eq exPerson exPerson = true :=
  ⟨c7_structural_equality.1 exPerson markus,
   c7_structural_equality.2.1 exUnitS1 exUnitS2,
   c7_structural_equality.2.2 exPersonXml "A" exPerson (by rfl)⟩

/-- Claim C8: the contact index built with Python `dict` semantics
(`pyDictOf`, as in `dict(parse_people(...))`) maps every external id to
the contact appearing last in input order among the pairs carrying that
id: earlier entries are overwritten silently (the construction is total —
no error — and performs no deduplication). -/
theorem c8_contact_index_last_write_wins :
    ∀ (pairs : List (String × Person)) (k : String),
      dictFind? k (pyDictOf pairs) = lastValue? k pairs ∧
      lastValue? k pairs =
        (pairs.reverse.find? (fun e => e.1 = k)).map (fun e => e.2) :=
  fun pairs k =>
    ⟨dictFind?_pyDictOf pairs k, lastValue?_eq_find?_reverse pairs k⟩

/-- Claim C9: the mentor-assignment pass is idempotent — running it a
second time over the same candidate list leaves the persons dictionary
(and so every contact's mentor reference) exactly as after the first run. -/
theorem c9_mentor_assignment_idempotent :
    ∀ (spec : List (String × List String)) (persons : PyDict Person),
      assignMentors spec (assignMentors spec persons) =
        assignMentors spec persons := by
  intro spec d
  have hpres : presIn (assignMentors spec d) = presIn d := by
    funext x
    simp only [presIn]
    rw [assignMentors_eq_map, dictFind?_map_entry]
    cases dictFind? x d <;> rfl
  rw [assignMentors_eq_map spec (assignMentors spec d), hpres,
      assignMentors_eq_map spec d, List.map_map]
  apply List.map_congr_left
  intro ent _
  simp only [Function.comp]
  exact congrArg (fun q => (ent.1, q)) (mentorResult_idem _ _ _ _)

/-- Claim C10: `parse_mentoring` is `dict(...)` over the candidate pairs,
keyed by mentor id, so when several mentoring deals share a mentor id the
dictionary retains only the mentee-id list of the last such deal in input
order — the earlier deals' mentee lists are discarded before any contact
resolution happens (`parse_mentoring` never sees the contact index). -/
theorem c10_mentoring_last_deal_wins :
    ∀ (deals : XmlNode) (pairs : List (String × List String)),
      parse_mentoring_pairs deals = .ok pairs →
      parse_mentoring deals = .ok (pyDictOf pairs) ∧
      ∀ m, dictFind? m (pyDictOf pairs) = lastValue? m pairs := by
  intro deals pairs h
  constructor
  · rw [parse_mentoring, h]
  · intro m
    exact dictFind?_pyDictOf pairs m

/-- Witness for C10 at the concrete fixtures: two mentoring deals share
the mentor id "M"; the dictionary keeps only the second deal's mentees. -/
theorem c10_witness :
    parse_mentoring exMentoringDeals = .ok (pyDictOf exMentoringPairs) ∧
    dictFind? "M" (pyDictOf exMentoringPairs) =
      lastValue? "M" exMentoringPairs := by
  have h := c10_mentoring_last_deal_wins exMentoringDeals exMentoringPairs
    (by rfl)
  exact ⟨h.1, h.2 "M"⟩

end Serlo
